import Mathlib

/-!
# Verification of the map-show-video coordinate-mapping and navigation logic

Shallow embedding of the algorithmic core of the repository:

* the viewport fit calculator (`calculateBackgroundBounds`, `getActualPosition`)
  of the click-based background-image variant of `main.js`;
* the scroll-driven variant of `main.js` (`calculateTransform`, `lerp`,
  `easeInOutCubic`, `updateOnScroll` and its section handlers, icon state);
* the click-based navigator (`showLocationDetails`, `hideInfoOverlay`);
* a step navigator modelled from the spec (the scroll-accumulator navigator
  with `isTransitioning` / `maxVisitedIndex` described in the spec has no
  implementation under `src/`).

JavaScript numbers are modelled as rationals (`ℚ`): every arithmetic
operation the embedded code performs is exact on the inputs considered, so
the rational model is the idealisation of IEEE doubles the spec's
"floating-point tolerance" refers to.  Where IEEE-special values (Infinity,
NaN) are observable — division by a zero container dimension — a dedicated
`JSNum` type models them explicitly.

DOM side effects (element creation, CSS classes, text content, video `src`)
are modelled as fields of explicit state records; the spec declares the DOM
wiring an external UI collaborator, so only the state the claims mention is
tracked.
-/

namespace MapShowVideo

/-- The fitted rectangle of the background image inside its container,
in pixels (`backgroundBounds` in `main.js`, click-based variant). -/
structure Bounds where
  left : ℚ
  top : ℚ
  width : ℚ
  height : ℚ
deriving DecidableEq, Repr

/-- `calculateBackgroundBounds` from `main.js` (click-based variant):
computes the rectangle at which the image is rendered under
`background-size: contain`.  Direct transcription of the source for a
container with nonzero dimensions; `jsCalculateBackgroundBounds` below
additionally models the IEEE division-by-zero behaviour. -/
def calculateBackgroundBounds (containerWidth containerHeight imageWidth imageHeight : ℚ) :
    Bounds :=
  let containerAspect := containerWidth / containerHeight
  let imageAspect := imageWidth / imageHeight
  if containerAspect > imageAspect then
    -- Container is wider than image - fit to height
    let bgHeight := containerHeight
    let bgWidth := bgHeight * imageAspect
    { left := (containerWidth - bgWidth) / 2, top := 0, width := bgWidth, height := bgHeight }
  else
    -- Container is taller than image - fit to width
    let bgWidth := containerWidth
    let bgHeight := bgWidth / imageAspect
    { left := 0, top := (containerHeight - bgHeight) / 2, width := bgWidth, height := bgHeight }

/-- A JavaScript number, as far as the embedded code can observe it:
a finite value (exact rational), positive or negative Infinity, or NaN.
The DOM dimensions feeding the code are nonnegative, so the distinction
between +0 and -0 is never observable and is not modelled. -/
inductive JSNum where
  | num (q : ℚ)
  | inf
  | ninf
  | nan
deriving DecidableEq, Repr

namespace JSNum

/-- IEEE-754 division as JavaScript performs it (no -0 inputs). -/
def jdiv : JSNum → JSNum → JSNum
  | num a, num b =>
    if b = 0 then (if a = 0 then nan else if 0 < a then inf else ninf) else num (a / b)
  | num _, inf => num 0
  | num _, ninf => num 0
  | inf, num b => if 0 ≤ b then inf else ninf
  | ninf, num b => if 0 ≤ b then ninf else inf
  | _, _ => nan

/-- IEEE-754 multiplication as JavaScript performs it (no -0 inputs). -/
def jmul : JSNum → JSNum → JSNum
  | num a, num b => num (a * b)
  | num a, inf => if a = 0 then nan else if 0 < a then inf else ninf
  | num a, ninf => if a = 0 then nan else if 0 < a then ninf else inf
  | inf, num b => if b = 0 then nan else if 0 < b then inf else ninf
  | ninf, num b => if b = 0 then nan else if 0 < b then ninf else inf
  | inf, inf => inf
  | inf, ninf => ninf
  | ninf, inf => ninf
  | ninf, ninf => inf
  | _, _ => nan

/-- IEEE-754 subtraction as JavaScript performs it. -/
def jsub : JSNum → JSNum → JSNum
  | num a, num b => num (a - b)
  | num _, inf => ninf
  | num _, ninf => inf
  | inf, num _ => inf
  | ninf, num _ => ninf
  | inf, ninf => inf
  | ninf, inf => ninf
  | _, _ => nan

/-- The JavaScript comparison `a > b`: false whenever either side is NaN. -/
def jgt : JSNum → JSNum → Bool
  | num a, num b => b < a
  | num _, inf => false
  | num _, ninf => true
  | inf, num _ => true
  | ninf, num _ => false
  | inf, ninf => true
  | _, _ => false

end JSNum

/-- `backgroundBounds` as a record of JavaScript numbers, for the analysis
of `calculateBackgroundBounds` on degenerate containers. -/
structure JSBounds where
  left : JSNum
  top : JSNum
  width : JSNum
  height : JSNum
deriving DecidableEq, Repr

/-- `calculateBackgroundBounds` from `main.js` (click-based variant),
transcribed over `JSNum` so that the behaviour on a zero-width or
zero-height container (division by zero) is modelled exactly as in
JavaScript.  The function has no guard: it always produces a value, and
the caller unconditionally overwrites the module-global `backgroundBounds`
with it (`jsCalculateBackgroundBoundsUpdate`). -/
def jsCalculateBackgroundBounds (containerWidth containerHeight imageWidth imageHeight : JSNum) :
    JSBounds :=
  let containerAspect := JSNum.jdiv containerWidth containerHeight
  let imageAspect := JSNum.jdiv imageWidth imageHeight
  if JSNum.jgt containerAspect imageAspect then
    -- Container is wider than image - fit to height
    let bgHeight := containerHeight
    let bgWidth := JSNum.jmul bgHeight imageAspect
    { left := JSNum.jdiv (JSNum.jsub containerWidth bgWidth) (JSNum.num 2),
      top := JSNum.num 0, width := bgWidth, height := bgHeight }
  else
    -- Container is taller than image - fit to width
    let bgWidth := containerWidth
    let bgHeight := JSNum.jdiv bgWidth imageAspect
    { left := JSNum.num 0,
      top := JSNum.jdiv (JSNum.jsub containerHeight bgHeight) (JSNum.num 2),
      width := bgWidth, height := bgHeight }

/-- The statement `backgroundBounds = { ... }` at the end of
`calculateBackgroundBounds`: the previous bounds are unconditionally
replaced by the freshly computed rectangle. -/
def jsCalculateBackgroundBoundsUpdate (previousBounds : JSBounds)
    (containerWidth containerHeight imageWidth imageHeight : JSNum) : JSBounds :=
  jsCalculateBackgroundBounds containerWidth containerHeight imageWidth imageHeight

/-- `getActualPosition` from `main.js` (click-based variant): converts a
percentage position to pixels inside the fitted background rectangle,
independently per axis.  The source reads the module-global
`backgroundBounds`; here it is an explicit argument. -/
def getActualPosition (backgroundBounds : Bounds) (percentX percentY : ℚ) : ℚ × ℚ :=
  (backgroundBounds.left + (percentX / 100) * backgroundBounds.width,
   backgroundBounds.top + (percentY / 100) * backgroundBounds.height)

/-- A location's percentage position on the map (`location.position`). -/
structure Position where
  x : ℚ
  y : ℚ
deriving DecidableEq, Repr

/-- `ZOOM_SCALE` from `main.js` (scroll-driven variant). -/
def ZOOM_SCALE : ℚ := 5 / 2

/-- `SECTIONS` from `main.js` (scroll-driven variant):
intro + 3 locations + outro. -/
def SECTIONS : ℕ := 5

/-- The object literal `{ scale, translateX, translateY }` passed to
`applyMapTransform` in the scroll-driven variant. -/
structure Transform where
  scale : ℚ
  translateX : ℚ
  translateY : ℚ
deriving DecidableEq, Repr

/-- `calculateTransform` from `main.js` (scroll-driven variant): offset to
center the given percentage position in the viewport, at the given scale. -/
def calculateTransform (position : Position) (scale : ℚ) : Transform :=
  let offsetX := (50 - position.x) * scale
  let offsetY := (50 - position.y) * scale
  { scale := scale, translateX := offsetX, translateY := offsetY }

/-- `lerp` from `main.js`: linear interpolation between two values
(`end` is a reserved word in Lean, so the second argument is `stop`). -/
def lerp (start stop progress : ℚ) : ℚ :=
  start + (stop - start) * progress

/-- `easeInOutCubic` from `main.js`: piecewise cubic ease-in-out. -/
def easeInOutCubic (t : ℚ) : ℚ :=
  if t < 1 / 2 then 4 * t * t * t
  else 1 - (-2 * t + 2) ^ 3 / 2

/-- The mutable module state of the scroll-driven variant of `main.js`
that the embedded functions read or write: the current location index, the
`visibleIcons` set (indices whose icon carries the CSS class `visible` —
`showIcon` keeps the set and the class in lock step), the set of icons
carrying the class `active`, whether the info overlay carries `active`,
whether the scroll hint carries `hidden`, and the transform last applied to
the map image.  Text content and video URLs shown in the overlay are DOM
wiring the spec puts out of scope and are determined by
`currentLocationIndex`. -/
structure ScrollState where
  currentLocationIndex : ℤ
  visibleIcons : Finset ℕ
  activeIcons : Finset ℕ
  overlayActive : Bool
  scrollHintHidden : Bool
  mapTransform : Transform
deriving DecidableEq

/-- `showIcon` from `main.js` (scroll-driven variant): ensures the icon at
`index` has the class `visible` and records it in `visibleIcons` (the
`entering` animation class is removed again by a timer and is cosmetic). -/
def showIcon (s : ScrollState) (index : ℕ) : ScrollState :=
  { s with visibleIcons := insert index s.visibleIcons }

/-- `clearActiveIcons` from `main.js` (scroll-driven variant). -/
def clearActiveIcons (s : ScrollState) : ScrollState :=
  { s with activeIcons := ∅ }

/-- `setActiveIcon` from `main.js` (scroll-driven variant). -/
def setActiveIcon (s : ScrollState) (index : ℕ) : ScrollState :=
  { (clearActiveIcons s) with activeIcons := {index} }

/-- `hideInfoOverlay` from `main.js` (scroll-driven variant). -/
def hideInfoOverlay (s : ScrollState) : ScrollState :=
  clearActiveIcons { s with overlayActive := false }

/-- `setActiveLocation` from `main.js` (scroll-driven variant): guarded
no-op outside `[0, N-1]`; otherwise reveals the icon, marks it active,
re-reveals all previous icons and updates `currentLocationIndex`. -/
def setActiveLocation (locations : List Position) (s : ScrollState) (index : ℤ) : ScrollState :=
  if index < 0 ∨ (locations.length : ℤ) ≤ index then s
  else
    let i := index.toNat
    let s := { s with overlayActive := true }
    let s := setActiveIcon (showIcon s i) i
    let s := (List.range i).foldl showIcon s
    { s with currentLocationIndex := index }

/-- `handleIntroSection` from `main.js` (scroll-driven variant). -/
def handleIntroSection (locations : List Position) (s : ScrollState) (progress : ℚ) :
    ScrollState :=
  if locations.length = 0 then s
  else
    let targetTransform := calculateTransform (locations.getD 0 ⟨0, 0⟩) ZOOM_SCALE
    let s := { s with mapTransform :=
      { scale := lerp 1 targetTransform.scale progress,
        translateX := lerp 0 targetTransform.translateX progress,
        translateY := lerp 0 targetTransform.translateY progress } }
    if 3 / 5 < progress then showIcon (setActiveLocation locations s 0) 0
    else hideInfoOverlay s

/-- `handleLocationSection` from `main.js` (scroll-driven variant). -/
def handleLocationSection (locations : List Position) (s : ScrollState)
    (locationIndex : ℕ) (progress : ℚ) : ScrollState :=
  if locations.length ≤ locationIndex then s
  else
    let currentTransform := calculateTransform (locations.getD locationIndex ⟨0, 0⟩) ZOOM_SCALE
    let s := { s with mapTransform := currentTransform }
    let s := setActiveLocation locations s locationIndex
    let s := if 1 / 10 < progress then showIcon s locationIndex else s
    let s := (List.range locationIndex).foldl showIcon s
    if 7 / 10 < progress ∧ locationIndex < locations.length - 1 then
      let nextTransform := calculateTransform (locations.getD (locationIndex + 1) ⟨0, 0⟩)
        ZOOM_SCALE
      let panProgress := (progress - 7 / 10) / (3 / 10)
      let easedPanProgress := easeInOutCubic panProgress
      let s := { s with mapTransform :=
        { scale := ZOOM_SCALE,
          translateX := lerp currentTransform.translateX nextTransform.translateX
            easedPanProgress,
          translateY := lerp currentTransform.translateY nextTransform.translateY
            easedPanProgress } }
      if 3 / 10 < panProgress then hideInfoOverlay s else s
    else s

/-- `handleOutroSection` from `main.js` (scroll-driven variant). -/
def handleOutroSection (locations : List Position) (s : ScrollState) (progress : ℚ) :
    ScrollState :=
  if locations.length = 0 then s
  else
    let lastTransform :=
      calculateTransform (locations.getD (locations.length - 1) ⟨0, 0⟩) ZOOM_SCALE
    let s := { s with mapTransform :=
      { scale := lerp ZOOM_SCALE 1 progress,
        translateX := lerp lastTransform.translateX 0 progress,
        translateY := lerp lastTransform.translateY 0 progress } }
    let s := hideInfoOverlay s
    (List.range locations.length).foldl showIcon s

/-- `updateOnScroll` from `main.js` (scroll-driven variant).  The source
computes `scrollPercent = scrollY / maxScroll` from the window geometry;
that external quantity is the `scrollPercent` argument here.  The body
updates the scroll-hint indicator, then dispatches on
`Math.floor(scrollPercent * (SECTIONS - 1))` to exactly one of the three
section handlers. -/
def updateOnScroll (locations : List Position) (s : ScrollState) (scrollPercent : ℚ) :
    ScrollState :=
  let s := { s with scrollHintHidden := decide (2 / 100 < scrollPercent) }
  let sectionProgress := scrollPercent * ((SECTIONS : ℚ) - 1)
  let currentSection : ℤ := ⌊sectionProgress⌋
  let sectionLocalProgress := sectionProgress - currentSection
  let easedProgress := easeInOutCubic sectionLocalProgress
  if currentSection = 0 then
    handleIntroSection locations s easedProgress
  else if 1 ≤ currentSection ∧ currentSection ≤ (locations.length : ℤ) then
    handleLocationSection locations s (currentSection - 1).toNat easedProgress
  else if (locations.length : ℤ) + 1 ≤ currentSection then
    handleOutroSection locations s easedProgress
  else s

namespace Click

/-- The mutable navigator state of the click-based background-image variant
of `main.js` that `showLocationDetails` / `hideInfoOverlay` read or write:
the current location index (`-1` = no location selected), which marker
carries the class `active`, which location's video is loaded in the player
(by index), whether the `controls` attribute is present on the video
element, and whether the info overlay carries `active`.  Video playback
position and the registered event handlers are DOM wiring the spec puts out
of scope. -/
structure NavState where
  currentLocationIndex : ℤ
  activeMarker : Option ℕ
  videoSource : Option ℕ
  videoControls : Bool
  overlayActive : Bool
deriving DecidableEq, Repr

/-- `showLocationDetails` from `main.js` (click-based variant): guarded
no-op when `index` is outside `[0, N-1]`; otherwise selects the location,
activates its marker, loads its video with the `controls` attribute
removed, and reveals the overlay (via a 100 ms timer, modelled as applied).
`autoplayBlocked` is the outcome of the `videoPlayer.play()` promise: when
the browser rejects it, the `.catch` handler re-adds the `controls`
attribute; nothing else in the function depends on that outcome. -/
def showLocationDetails (numLocations : ℕ) (autoplayBlocked : Bool)
    (s : NavState) (index : ℤ) : NavState :=
  if index < 0 ∨ (numLocations : ℤ) ≤ index then s
  else
    { currentLocationIndex := index,
      activeMarker := some index.toNat,
      videoSource := some index.toNat,
      videoControls := autoplayBlocked,
      overlayActive := true }

/-- `hideInfoOverlay` from `main.js` (click-based variant): hides the
overlay, pauses/rewinds the video, and resets to the overview state. -/
def hideInfoOverlay (s : NavState) : NavState :=
  { s with overlayActive := false, currentLocationIndex := -1, activeMarker := none }

end Click

/-- `NavigationState` of the step navigator described in spec §3/§4.2.
The scroll-accumulator step navigator (with its transition lock and
visited watermark) has no implementation under `src/`; it is modelled from
the spec here. -/
structure NavigationState where
  currentLocationIndex : ℤ
  maxVisitedIndex : ℤ
  isTransitioning : Bool
  scrollAccumulator : ℚ
deriving DecidableEq, Repr

/-- Modelled from the spec: the step navigator's handling of a navigation
request (spec §4.2, steps 1–3), which is not present under `src/`.  A
request is (1) rejected outright while `isTransitioning` is set — dropped,
not buffered; (2) rejected if the target index is outside `[-1, N-1]`;
(3) otherwise accepted: the lock is taken, `currentLocationIndex` is
updated and `maxVisitedIndex` is advanced to
`max(maxVisitedIndex, newIndex)`. -/
def processNavigationRequest (numLocations : ℕ) (s : NavigationState)
    (targetIndex : ℤ) : NavigationState :=
  if s.isTransitioning then s
  else if targetIndex < -1 ∨ (numLocations : ℤ) ≤ targetIndex then s
  else
    { s with
      currentLocationIndex := targetIndex,
      maxVisitedIndex := max s.maxVisitedIndex targetIndex,
      isTransitioning := true }

/-! ## Theorems -/

/-- C7: for every location position `{x, y}` (in percent) and scale factor,
`calculateTransform` returns exactly the translation components
`(50 - x) * scale` and `(50 - y) * scale` together with the given scale,
and nothing else (the result record has exactly these three fields). -/
theorem calculateTransform_centers (position : Position) (scale : ℚ) :
    calculateTransform position scale =
      { scale := scale,
        translateX := (50 - position.x) * scale,
        translateY := (50 - position.y) * scale } := rfl

/-- C4: in every state of the step navigator in which `isTransitioning` is
true, processing any navigation request leaves the whole state — in
particular `currentLocationIndex` — unchanged: the request is dropped, and
nothing is queued (the state carries no queue for it to land in). -/
theorem processNavigationRequest_dropped_while_transitioning
    (numLocations : ℕ) (s : NavigationState) (targetIndex : ℤ)
    (h : s.isTransitioning = true) :
    processNavigationRequest numLocations s targetIndex = s ∧
    (processNavigationRequest numLocations s targetIndex).currentLocationIndex =
      s.currentLocationIndex := by
  constructor
  · simp [processNavigationRequest, h]
  · simp [processNavigationRequest, h]

/-- Witness for C4 at a concrete transitioning state. -/
theorem processNavigationRequest_dropped_while_transitioning_witness :
    processNavigationRequest 3 ⟨1, 2, true, 0⟩ 2 = ⟨1, 2, true, 0⟩ :=
  (processNavigationRequest_dropped_while_transitioning 3 ⟨1, 2, true, 0⟩ 2 rfl).1

/-- C6: a navigation request to an index outside `[-1, N-1]` is silently
ignored as a no-op by both navigation entry points under `src/main.js`:
`showLocationDetails` (click-based variant) and `setActiveLocation`
(scroll-driven variant) return the state unchanged, whatever the autoplay
outcome; both functions are total, so no error is raised. -/
theorem navigation_out_of_range_noop (locations : List Position)
    (autoplayBlocked : Bool) (sClick : Click.NavState) (sScroll : ScrollState)
    (index : ℤ)
    (h : index < -1 ∨ (locations.length : ℤ) ≤ index) :
    Click.showLocationDetails locations.length autoplayBlocked sClick index = sClick ∧
    setActiveLocation locations sScroll index = sScroll := by
  have hguard : index < 0 ∨ (locations.length : ℤ) ≤ index := by
    rcases h with h | h
    · exact Or.inl (by omega)
    · exact Or.inr h
  constructor
  · simp only [Click.showLocationDetails, if_pos hguard]
  · simp only [setActiveLocation, if_pos hguard]

/-- Witness for C6 at the concrete out-of-range index 5 with 3 locations. -/
theorem navigation_out_of_range_noop_witness :
    Click.showLocationDetails 3 false ⟨-1, none, none, false, false⟩ 5 =
      ⟨-1, none, none, false, false⟩ :=
  (navigation_out_of_range_noop [⟨10, 20⟩, ⟨30, 40⟩, ⟨50, 60⟩] false
    ⟨-1, none, none, false, false⟩
    ⟨-1, ∅, ∅, false, false, ⟨1, 0, 0⟩⟩ 5 (Or.inr (by decide))).1

/-- C9: when the video `play()` promise is rejected (autoplay blocked),
`showLocationDetails` recovers locally by adding the `controls` attribute
to the video element; with autoplay succeeding the attribute stays removed;
and every other piece of the location-selection state — current index,
active marker, loaded video, overlay — is identical in the two cases.  The
function is total in both cases: the rejection is absorbed by the `.catch`
handler, never propagated. -/
theorem autoplay_rejection_fallback (numLocations : ℕ) (s : Click.NavState)
    (index : ℤ) (h0 : 0 ≤ index) (h1 : index < (numLocations : ℤ)) :
    (Click.showLocationDetails numLocations true s index).videoControls = true ∧
    (Click.showLocationDetails numLocations false s index).videoControls = false ∧
    (Click.showLocationDetails numLocations true s index).currentLocationIndex =
      (Click.showLocationDetails numLocations false s index).currentLocationIndex ∧
    (Click.showLocationDetails numLocations true s index).activeMarker =
      (Click.showLocationDetails numLocations false s index).activeMarker ∧
    (Click.showLocationDetails numLocations true s index).videoSource =
      (Click.showLocationDetails numLocations false s index).videoSource ∧
    (Click.showLocationDetails numLocations true s index).overlayActive =
      (Click.showLocationDetails numLocations false s index).overlayActive := by
  have hguard : ¬(index < 0 ∨ (numLocations : ℤ) ≤ index) := by omega
  simp [Click.showLocationDetails, if_neg hguard]

/-- Witness for C9 at concrete index 1 of 3 locations. -/
theorem autoplay_rejection_fallback_witness :
    (Click.showLocationDetails 3 true ⟨-1, none, none, false, false⟩ 1).videoControls =
      true ∧
    (Click.showLocationDetails 3 false ⟨-1, none, none, false, false⟩ 1).videoControls =
      false :=
  ⟨(autoplay_rejection_fallback 3 ⟨-1, none, none, false, false⟩ 1 (by decide)
      (by decide)).1,
   (autoplay_rejection_fallback 3 ⟨-1, none, none, false, false⟩ 1 (by decide)
      (by decide)).2.1⟩

/-- C3 (refuting the claimed guard): `calculateBackgroundBounds` has no
guard for a zero-size container.  On container 800×0 with image 1000×500
the division `containerWidth / containerHeight` yields Infinity, the
fit-to-height branch is taken, and the previously stored bounds
`{1, 2, 3, 4}` are overwritten with the degenerate finite rectangle
`{left := 400, top := 0, width := 0, height := 0}` — the recompute is not
skipped and the stored bounds do not stay unchanged. -/
theorem zero_container_overwrites_bounds :
    jsCalculateBackgroundBounds (.num 800) (.num 0) (.num 1000) (.num 500) =
      { left := .num 400, top := .num 0, width := .num 0, height := .num 0 } ∧
    jsCalculateBackgroundBoundsUpdate
        { left := .num 1, top := .num 2, width := .num 3, height := .num 4 }
        (.num 800) (.num 0) (.num 1000) (.num 500) ≠
      { left := .num 1, top := .num 2, width := .num 3, height := .num 4 } := by
  refine ⟨?_, ?_⟩ <;>
    norm_num [jsCalculateBackgroundBounds, jsCalculateBackgroundBoundsUpdate,
      JSNum.jdiv, JSNum.jmul, JSNum.jsub, JSNum.jgt]

/-- C1: for strictly positive container and image dimensions,
`calculateBackgroundBounds` returns a rectangle lying fully inside
`[0, containerW] × [0, containerH]` whose width/height ratio equals
`imageW / imageH` exactly (the rational model computes the IEEE arithmetic
without rounding, so "up to floating-point tolerance" becomes equality). -/
theorem calculateBackgroundBounds_contain_fit (cw ch iw ih : ℚ)
    (hcw : 0 < cw) (hch : 0 < ch) (hiw : 0 < iw) (hih : 0 < ih) :
    0 ≤ (calculateBackgroundBounds cw ch iw ih).left ∧
    0 ≤ (calculateBackgroundBounds cw ch iw ih).top ∧
    (calculateBackgroundBounds cw ch iw ih).left +
      (calculateBackgroundBounds cw ch iw ih).width ≤ cw ∧
    (calculateBackgroundBounds cw ch iw ih).top +
      (calculateBackgroundBounds cw ch iw ih).height ≤ ch ∧
    0 < (calculateBackgroundBounds cw ch iw ih).width ∧
    0 < (calculateBackgroundBounds cw ch iw ih).height ∧
    (calculateBackgroundBounds cw ch iw ih).width /
      (calculateBackgroundBounds cw ch iw ih).height = iw / ih := by
  have hA : 0 < iw / ih := div_pos hiw hih
  simp only [calculateBackgroundBounds]
  split_ifs with h
  all_goals dsimp only
  · -- fit to height: container relatively wider than the image
    rw [gt_iff_lt, div_lt_div_iff₀ hih hch] at h
    have hw : ch * (iw / ih) < cw := by
      rw [show ch * (iw / ih) = ch * iw / ih by ring, div_lt_iff₀ hih]
      nlinarith
    have hwpos : 0 < ch * (iw / ih) := mul_pos hch hA
    refine ⟨by linarith, le_refl 0, by linarith, by linarith, hwpos, hch, ?_⟩
    rw [mul_comm, mul_div_assoc, div_self hch.ne', mul_one]
  · -- fit to width: container relatively taller than the image
    rw [gt_iff_lt, not_lt, div_le_div_iff₀ hch hih] at h
    have hhgt : cw / (iw / ih) ≤ ch := by
      rw [div_le_iff₀ hA, mul_comm]
      rw [show iw / ih * ch = iw * ch / ih by ring, le_div_iff₀ hih]
      nlinarith
    have hhpos : 0 < cw / (iw / ih) := div_pos hcw hA
    refine ⟨le_refl 0, by linarith, by linarith, by linarith, hcw, hhpos, ?_⟩
    rw [div_div_eq_mul_div, mul_comm, mul_div_assoc, div_self hcw.ne', mul_one]

/-- Witness for C1 at a 16:9 container holding a 4:3 image
(fit to height: rectangle `{left 2, top 0, width 12, height 9}`). -/
theorem calculateBackgroundBounds_contain_fit_witness :
    0 ≤ (calculateBackgroundBounds 16 9 4 3).left ∧
    0 ≤ (calculateBackgroundBounds 16 9 4 3).top ∧
    (calculateBackgroundBounds 16 9 4 3).left +
      (calculateBackgroundBounds 16 9 4 3).width ≤ 16 ∧
    (calculateBackgroundBounds 16 9 4 3).top +
      (calculateBackgroundBounds 16 9 4 3).height ≤ 9 ∧
    0 < (calculateBackgroundBounds 16 9 4 3).width ∧
    0 < (calculateBackgroundBounds 16 9 4 3).height ∧
    (calculateBackgroundBounds 16 9 4 3).width /
      (calculateBackgroundBounds 16 9 4 3).height = 4 / 3 :=
  calculateBackgroundBounds_contain_fit 16 9 4 3 (by norm_num) (by norm_num)
    (by norm_num) (by norm_num)

/-- C2: for bounds with positive width and height, the percentage-to-pixel
conversion `getActualPosition` maps `0` to the bound origin and `100` to
origin + size, is strictly monotonic per axis, and is bijective from
`[0, 100]` onto the bounds rectangle on each axis (every pixel coordinate
in the fitted rectangle has exactly one preimage percentage in `[0, 100]`). -/
theorem getActualPosition_monotone_bijective (bnd : Bounds)
    (hw : 0 < bnd.width) (hh : 0 < bnd.height) :
    ((getActualPosition bnd 0 0).1 = bnd.left ∧
     (getActualPosition bnd 0 0).2 = bnd.top) ∧
    ((getActualPosition bnd 100 100).1 = bnd.left + bnd.width ∧
     (getActualPosition bnd 100 100).2 = bnd.top + bnd.height) ∧
    (∀ p q y : ℚ, p < q →
      (getActualPosition bnd p y).1 < (getActualPosition bnd q y).1) ∧
    (∀ p q x : ℚ, p < q →
      (getActualPosition bnd x p).2 < (getActualPosition bnd x q).2) ∧
    (∀ u : ℚ, bnd.left ≤ u → u ≤ bnd.left + bnd.width →
      ∃! p : ℚ, 0 ≤ p ∧ p ≤ 100 ∧ (getActualPosition bnd p 0).1 = u) ∧
    (∀ v : ℚ, bnd.top ≤ v → v ≤ bnd.top + bnd.height →
      ∃! p : ℚ, 0 ≤ p ∧ p ≤ 100 ∧ (getActualPosition bnd 0 p).2 = v) := by
  simp only [getActualPosition]
  refine ⟨⟨by norm_num, by norm_num⟩, ⟨by norm_num, by norm_num⟩, ?_, ?_, ?_, ?_⟩
  · intro p q y hpq
    have h1 : p * bnd.width < q * bnd.width := by nlinarith
    linarith
  · intro p q x hpq
    have h1 : p * bnd.height < q * bnd.height := by nlinarith
    linarith
  · intro u h1 h2
    refine ⟨(u - bnd.left) * 100 / bnd.width,
      ⟨div_nonneg (by linarith) hw.le, ?_, ?_⟩, ?_⟩
    · rw [div_le_iff₀ hw]
      nlinarith
    · field_simp
      ring
    · rintro p ⟨hp0, hp1, hpe⟩
      rw [eq_div_iff hw.ne']
      nlinarith [hpe]
  · intro v h1 h2
    refine ⟨(v - bnd.top) * 100 / bnd.height,
      ⟨div_nonneg (by linarith) hh.le, ?_, ?_⟩, ?_⟩
    · rw [div_le_iff₀ hh]
      nlinarith
    · field_simp
      ring
    · rintro p ⟨hp0, hp1, hpe⟩
      rw [eq_div_iff hh.ne']
      nlinarith [hpe]

/-- Witness for C2 at the concrete bounds `{left 2, top 0, width 12, height 9}`. -/
theorem getActualPosition_monotone_bijective_witness :
    ((getActualPosition ⟨2, 0, 12, 9⟩ 0 0).1 = (2 : ℚ) ∧
     (getActualPosition ⟨2, 0, 12, 9⟩ 0 0).2 = (0 : ℚ)) ∧
    ((getActualPosition ⟨2, 0, 12, 9⟩ 100 100).1 = (2 : ℚ) + 12 ∧
     (getActualPosition ⟨2, 0, 12, 9⟩ 100 100).2 = (0 : ℚ) + 9) ∧
    (∀ p q y : ℚ, p < q →
      (getActualPosition ⟨2, 0, 12, 9⟩ p y).1 < (getActualPosition ⟨2, 0, 12, 9⟩ q y).1) ∧
    (∀ p q x : ℚ, p < q →
      (getActualPosition ⟨2, 0, 12, 9⟩ x p).2 < (getActualPosition ⟨2, 0, 12, 9⟩ x q).2) ∧
    (∀ u : ℚ, (2 : ℚ) ≤ u → u ≤ (2 : ℚ) + 12 →
      ∃! p : ℚ, 0 ≤ p ∧ p ≤ 100 ∧ (getActualPosition ⟨2, 0, 12, 9⟩ p 0).1 = u) ∧
    (∀ v : ℚ, (0 : ℚ) ≤ v → v ≤ (0 : ℚ) + 9 →
      ∃! p : ℚ, 0 ≤ p ∧ p ≤ 100 ∧ (getActualPosition ⟨2, 0, 12, 9⟩ 0 p).2 = v) :=
  getActualPosition_monotone_bijective ⟨2, 0, 12, 9⟩ (by norm_num) (by norm_num)

/-- Helper: `easeInOutCubic` is monotone on `[0, 1]` (the two cubic
branches are each monotone there and agree at the split point `1/2`). -/
lemma easeInOutCubic_monotoneOn {s t : ℚ} (h0 : 0 ≤ s) (hst : s ≤ t) (ht : t ≤ 1) :
    easeInOutCubic s ≤ easeInOutCubic t := by
  unfold easeInOutCubic
  split_ifs with hs ht1 ht2
  · have h1 : s ^ 3 ≤ t ^ 3 := pow_le_pow_left₀ h0 hst 3
    nlinarith [h1]
  · have h1 : s ^ 3 ≤ (1 / 2 : ℚ) ^ 3 := pow_le_pow_left₀ h0 hs.le 3
    have ha : (0 : ℚ) ≤ -2 * t + 2 := by linarith
    have hb : -2 * t + 2 ≤ 1 := by
      have := not_lt.1 ht1
      linarith
    have h2 : (-2 * t + 2) ^ 3 ≤ 1 := by
      calc (-2 * t + 2) ^ 3 ≤ 1 ^ 3 := pow_le_pow_left₀ ha hb 3
        _ = 1 := one_pow 3
    nlinarith [h1, h2]
  · exact absurd (lt_of_le_of_lt hst ht2) hs
  · have ha : (0 : ℚ) ≤ -2 * t + 2 := by linarith
    have hb : -2 * t + 2 ≤ -2 * s + 2 := by linarith
    have h1 : (-2 * t + 2) ^ 3 ≤ (-2 * s + 2) ^ 3 := pow_le_pow_left₀ ha hb 3
    linarith

/-- C10: `easeInOutCubic` fixes the endpoints (`f 0 = 0`, `f 1 = 1`), its
two piecewise branches agree at `t = 1/2` where both give `1/2`, and it is
monotone non-decreasing on `[0, 1]`; hence every eased interpolation
`lerp a b (easeInOutCubic t)` starts exactly at `a`, ends exactly at `b`,
and progresses from `a` towards `b` without reversal. -/
theorem easeInOutCubic_lerp_spec :
    easeInOutCubic 0 = 0 ∧
    easeInOutCubic 1 = 1 ∧
    easeInOutCubic (1 / 2) = 1 / 2 ∧
    (4 * (1 / 2 : ℚ) * (1 / 2) * (1 / 2) = 1 - (-2 * (1 / 2 : ℚ) + 2) ^ 3 / 2) ∧
    (∀ s t : ℚ, 0 ≤ s → s ≤ t → t ≤ 1 → easeInOutCubic s ≤ easeInOutCubic t) ∧
    (∀ a b : ℚ, lerp a b (easeInOutCubic 0) = a ∧ lerp a b (easeInOutCubic 1) = b) ∧
    (∀ a b s t : ℚ, 0 ≤ s → s ≤ t → t ≤ 1 → a ≤ b →
      lerp a b (easeInOutCubic s) ≤ lerp a b (easeInOutCubic t)) := by
  have h0 : easeInOutCubic 0 = 0 := by norm_num [easeInOutCubic]
  have h1 : easeInOutCubic 1 = 1 := by norm_num [easeInOutCubic]
  refine ⟨h0, h1, by norm_num [easeInOutCubic], by norm_num,
    fun s t hs hst ht => easeInOutCubic_monotoneOn hs hst ht,
    fun a b => ⟨by rw [h0]; simp [lerp], by rw [h1]; simp [lerp]⟩,
    fun a b s t hs hst ht hab => ?_⟩
  have hmono := easeInOutCubic_monotoneOn hs hst ht
  have hscale : (b - a) * easeInOutCubic s ≤ (b - a) * easeInOutCubic t :=
    mul_le_mul_of_nonneg_left hmono (by linarith)
  simp only [lerp]
  linarith

/-- Witness for C10: the monotonicity and endpoint clauses at concrete
inputs. -/
theorem easeInOutCubic_lerp_spec_witness :
    easeInOutCubic 0 ≤ easeInOutCubic (1 / 2) ∧
    lerp 3 7 (easeInOutCubic 0) = 3 ∧
    lerp 3 7 (easeInOutCubic 0) ≤ lerp 3 7 (easeInOutCubic 1) :=
  ⟨easeInOutCubic_lerp_spec.2.2.2.2.1 0 (1 / 2) (le_refl 0) (by norm_num) (by norm_num),
   (easeInOutCubic_lerp_spec.2.2.2.2.2.1 3 7).1,
   easeInOutCubic_lerp_spec.2.2.2.2.2.2 3 7 0 1 (le_refl 0) (by norm_num) (le_refl 1)
     (by norm_num)⟩

/-- Helper: an icon in `visibleIcons` is still there after any fold of
`showIcon` — `showIcon` only ever adds. -/
lemma mem_visibleIcons_foldl (l : List ℕ) (s : ScrollState) {x : ℕ}
    (hx : x ∈ s.visibleIcons) : x ∈ (l.foldl showIcon s).visibleIcons := by
  induction l generalizing s with
  | nil => exact hx
  | cons a l ih => exact ih (showIcon s a) (Finset.mem_insert_of_mem hx)

/-- Helper: `setActiveLocation` never removes a visible icon. -/
lemma mem_visibleIcons_setActiveLocation (locations : List Position) (s : ScrollState)
    (index : ℤ) {x : ℕ} (hx : x ∈ s.visibleIcons) :
    x ∈ (setActiveLocation locations s index).visibleIcons := by
  unfold setActiveLocation
  split_ifs with h
  · exact hx
  · refine mem_visibleIcons_foldl _ _ ?_
    exact Finset.mem_insert_of_mem hx

/-- Helper: the intro-section handler never removes a visible icon. -/
lemma mem_visibleIcons_handleIntroSection (locations : List Position) (s : ScrollState)
    (progress : ℚ) {x : ℕ} (hx : x ∈ s.visibleIcons) :
    x ∈ (handleIntroSection locations s progress).visibleIcons := by
  unfold handleIntroSection
  split_ifs with h hp
  · exact hx
  · refine Finset.mem_insert_of_mem ?_
    refine mem_visibleIcons_setActiveLocation _ _ _ ?_
    exact hx
  · exact hx

/-- Helper: the location-section handler never removes a visible icon. -/
lemma mem_visibleIcons_handleLocationSection (locations : List Position) (s : ScrollState)
    (locationIndex : ℕ) (progress : ℚ) {x : ℕ} (hx : x ∈ s.visibleIcons) :
    x ∈ (handleLocationSection locations s locationIndex progress).visibleIcons := by
  unfold handleLocationSection
  dsimp only
  split_ifs with h h1 h2 h3
  all_goals
    repeat
      first
        | exact hx
        | refine mem_visibleIcons_foldl _ _ ?_
        | refine mem_visibleIcons_setActiveLocation _ _ _ ?_
        | refine Finset.mem_insert_of_mem ?_

/-- Helper: the outro-section handler never removes a visible icon. -/
lemma mem_visibleIcons_handleOutroSection (locations : List Position) (s : ScrollState)
    (progress : ℚ) {x : ℕ} (hx : x ∈ s.visibleIcons) :
    x ∈ (handleOutroSection locations s progress).visibleIcons := by
  unfold handleOutroSection
  split_ifs with h
  · exact hx
  · refine mem_visibleIcons_foldl _ _ ?_
    exact hx

/-- Helper: one scroll update never removes a visible icon. -/
lemma mem_visibleIcons_updateOnScroll (locations : List Position) (s : ScrollState)
    (scrollPercent : ℚ) {x : ℕ} (hx : x ∈ s.visibleIcons) :
    x ∈ (updateOnScroll locations s scrollPercent).visibleIcons := by
  unfold updateOnScroll
  dsimp only
  split_ifs with h1 h2 h3
  · refine mem_visibleIcons_handleIntroSection _ _ _ ?_
    exact hx
  · refine mem_visibleIcons_handleLocationSection _ _ _ _ ?_
    exact hx
  · refine mem_visibleIcons_handleOutroSection _ _ _ ?_
    exact hx
  · exact hx

/-- C5: across any sequence of scroll updates — including those that pan
back to the overview — the set of revealed location icons is monotonically
non-decreasing: an icon once in `visibleIcons` (equivalently, once carrying
the CSS class `visible`, which no code path removes) stays in it. -/
theorem visibleIcons_monotone (locations : List Position) (s : ScrollState)
    (scrolls : List ℚ) (i : ℕ) (hi : i ∈ s.visibleIcons) :
    i ∈ (scrolls.foldl (updateOnScroll locations) s).visibleIcons := by
  induction scrolls generalizing s with
  | nil => exact hi
  | cons p ps ih => exact ih _ (mem_visibleIcons_updateOnScroll locations s p hi)

/-- Witness for C5: icon 0, once revealed, survives a scroll sequence that
visits locations and returns to the overview. -/
theorem visibleIcons_monotone_witness :
    0 ∈ (([0, 1 / 2, 1] : List ℚ).foldl
      (updateOnScroll [⟨10, 20⟩, ⟨30, 40⟩, ⟨50, 60⟩])
      ⟨-1, {0}, ∅, false, false, ⟨1, 0, 0⟩⟩).visibleIcons :=
  visibleIcons_monotone [⟨10, 20⟩, ⟨30, 40⟩, ⟨50, 60⟩]
    ⟨-1, {0}, ∅, false, false, ⟨1, 0, 0⟩⟩ [0, 1 / 2, 1] 0 (by decide)

/-- C8: for every scroll fraction in `[0, 1]` and any number of loaded
locations, `updateOnScroll` partitions by the section index
`⌊scrollPercent * (SECTIONS - 1)⌋`: index 0 runs the intro handler, an
index `k ∈ [1, N]` runs the location handler for location `k - 1`, and an
index `≥ N + 1` runs the outro handler; the three cases cover every
section index reachable from `[0, 1]` and are mutually exclusive, so
exactly one handler applies per scroll position. -/
theorem updateOnScroll_section_dispatch (locations : List Position) (s : ScrollState)
    (p : ℚ) (h0 : 0 ≤ p) (h1 : p ≤ 1) :
    (⌊p * ((SECTIONS : ℚ) - 1)⌋ = 0 →
      updateOnScroll locations s p =
        handleIntroSection locations
          { s with scrollHintHidden := decide (2 / 100 < p) }
          (easeInOutCubic (p * ((SECTIONS : ℚ) - 1) -
            ((⌊p * ((SECTIONS : ℚ) - 1)⌋ : ℤ) : ℚ)))) ∧
    (∀ k : ℤ, ⌊p * ((SECTIONS : ℚ) - 1)⌋ = k → 1 ≤ k → k ≤ (locations.length : ℤ) →
      updateOnScroll locations s p =
        handleLocationSection locations
          { s with scrollHintHidden := decide (2 / 100 < p) }
          (k - 1).toNat
          (easeInOutCubic (p * ((SECTIONS : ℚ) - 1) - (k : ℚ)))) ∧
    ((locations.length : ℤ) + 1 ≤ ⌊p * ((SECTIONS : ℚ) - 1)⌋ →
      updateOnScroll locations s p =
        handleOutroSection locations
          { s with scrollHintHidden := decide (2 / 100 < p) }
          (easeInOutCubic (p * ((SECTIONS : ℚ) - 1) -
            ((⌊p * ((SECTIONS : ℚ) - 1)⌋ : ℤ) : ℚ)))) ∧
    (⌊p * ((SECTIONS : ℚ) - 1)⌋ = 0 ∨
      (1 ≤ ⌊p * ((SECTIONS : ℚ) - 1)⌋ ∧
        ⌊p * ((SECTIONS : ℚ) - 1)⌋ ≤ (locations.length : ℤ)) ∨
      (locations.length : ℤ) + 1 ≤ ⌊p * ((SECTIONS : ℚ) - 1)⌋) ∧
    ¬(⌊p * ((SECTIONS : ℚ) - 1)⌋ = 0 ∧ 1 ≤ ⌊p * ((SECTIONS : ℚ) - 1)⌋) ∧
    ¬(⌊p * ((SECTIONS : ℚ) - 1)⌋ ≤ (locations.length : ℤ) ∧
      (locations.length : ℤ) + 1 ≤ ⌊p * ((SECTIONS : ℚ) - 1)⌋) := by
  have hq : (0 : ℚ) ≤ p * ((SECTIONS : ℚ) - 1) := by
    have : (0 : ℚ) ≤ (SECTIONS : ℚ) - 1 := by norm_num [SECTIONS]
    exact mul_nonneg h0 this
  have hfloor : 0 ≤ ⌊p * ((SECTIONS : ℚ) - 1)⌋ := Int.floor_nonneg.2 hq
  refine ⟨?_, ?_, ?_, by omega, by omega, by omega⟩
  · intro hk
    unfold updateOnScroll
    dsimp only
    rw [if_pos hk]
  · intro k hk hk1 hkN
    unfold updateOnScroll
    dsimp only
    rw [if_neg (by omega), if_pos ⟨by omega, by omega⟩, hk]
  · intro hk
    unfold updateOnScroll
    dsimp only
    rw [if_neg (by omega), if_neg (by omega), if_pos hk]

/-- Witness for C8 at `p = 1/8` (section index 0) with three locations. -/
theorem updateOnScroll_section_dispatch_witness :
    (⌊(1 / 8 : ℚ) * ((SECTIONS : ℚ) - 1)⌋ = 0 →
      updateOnScroll [⟨10, 20⟩, ⟨30, 40⟩, ⟨50, 60⟩]
          ⟨-1, ∅, ∅, false, false, ⟨1, 0, 0⟩⟩ (1 / 8) =
        handleIntroSection [⟨10, 20⟩, ⟨30, 40⟩, ⟨50, 60⟩]
          { (⟨-1, ∅, ∅, false, false, ⟨1, 0, 0⟩⟩ : ScrollState) with
            scrollHintHidden := decide (2 / 100 < (1 / 8 : ℚ)) }
          (easeInOutCubic ((1 / 8 : ℚ) * ((SECTIONS : ℚ) - 1) -
            ((⌊(1 / 8 : ℚ) * ((SECTIONS : ℚ) - 1)⌋ : ℤ) : ℚ)))) ∧
    (⌊(1 / 8 : ℚ) * ((SECTIONS : ℚ) - 1)⌋ = 0 ∨
      (1 ≤ ⌊(1 / 8 : ℚ) * ((SECTIONS : ℚ) - 1)⌋ ∧
        ⌊(1 / 8 : ℚ) * ((SECTIONS : ℚ) - 1)⌋ ≤
          (([⟨10, 20⟩, ⟨30, 40⟩, ⟨50, 60⟩] : List Position).length : ℤ)) ∨
      (([⟨10, 20⟩, ⟨30, 40⟩, ⟨50, 60⟩] : List Position).length : ℤ) + 1 ≤
        ⌊(1 / 8 : ℚ) * ((SECTIONS : ℚ) - 1)⌋) :=
  ⟨(updateOnScroll_section_dispatch [⟨10, 20⟩, ⟨30, 40⟩, ⟨50, 60⟩]
      ⟨-1, ∅, ∅, false, false, ⟨1, 0, 0⟩⟩ (1 / 8) (by norm_num) (by norm_num)).1,
   (updateOnScroll_section_dispatch [⟨10, 20⟩, ⟨30, 40⟩, ⟨50, 60⟩]
      ⟨-1, ∅, ∅, false, false, ⟨1, 0, 0⟩⟩ (1 / 8) (by norm_num)
      (by norm_num)).2.2.2.1⟩

end MapShowVideo
